import Mathlib

/-!
Verification of the shared utility module `agents/utils.py`:
the guarded subprocess wrapper `safe_run` and the structured logging
helper `user_log`.  The Python functions are shallowly embedded as pure
Lean functions; the process-spawning primitive (`subprocess.run`) is
abstracted by an oracle giving the exit code of a spawned process, and
each call records the list of spawn events so that "no process is
spawned" is expressible.
-/

namespace AgentsUtils

/-- ASCII lowering of a single character, as Python `str.lower()` acts on
the ASCII range (the environment values and level names compared by the
code are ASCII). -/
def asciiLowerChar (c : Char) : Char :=
  if 'A' ≤ c ∧ c ≤ 'Z' then Char.ofNat (c.toNat + 32) else c

/-- Python `s.lower()` restricted to ASCII. -/
def pyLower (s : String) : String :=
  String.mk (s.data.map asciiLowerChar)

/-- The characters Python `str.split()` / `str.strip()` treat as
whitespace (ASCII range). -/
def pyIsSpace (c : Char) : Bool :=
  c = ' ' || c = '\t' || c = '\n' || c = '\r' || c = Char.ofNat 11 || c = Char.ofNat 12

/-- Split a character list at every separator character, keeping empty
fragments (the result is always non-empty). -/
def splitCharsBy (p : Char → Bool) : List Char → List (List Char)
  | [] => [[]]
  | c :: cs =>
      match splitCharsBy p cs with
      | [] => [[]]
      | t :: ts => if p c then [] :: t :: ts else (c :: t) :: ts

/-- Python `s.split()` with no separator: split on runs of whitespace and
drop empty fragments. -/
def pySplitWs (s : String) : List String :=
  ((splitCharsBy pyIsSpace s.data).map String.mk).filter (fun t => t ≠ "")

/-- Python `s.split(",")`: split at every comma, keeping empty fragments. -/
def pySplitComma (s : String) : List String :=
  (splitCharsBy (fun c => c = ',') s.data).map String.mk

/-- Python `s.strip()`: remove leading and trailing whitespace. -/
def pyStrip (s : String) : String :=
  String.mk (((s.data.dropWhile (fun c => pyIsSpace c)).reverse.dropWhile
    (fun c => pyIsSpace c)).reverse)

/-- The environment variables read by `agents/utils.py`; `none` is an
unset variable, as distinguished from one set to the empty string. -/
structure Env where
  allow_shell : Option String
  allowed_shell_commands : Option String
  log_to_stdout : Option String
deriving DecidableEq, Repr

/-- A command, as `safe_run` receives it: `cmd: Union[str, List[str]]`. -/
inductive Cmd
  | str (s : String)
  | list (xs : List String)
deriving DecidableEq, Repr

/-- The exceptions `safe_run` can raise: the explicit `PermissionError`,
the `IndexError` from `cmd.split()[0]` on a tokenless string, and
`subprocess.CalledProcessError` (re-raised by `safe_run`) carrying the
return code and the command. -/
inductive PyExn
  | permissionError (msg : String)
  | indexError
  | calledProcessError (returncode : Int) (cmd : Cmd)
deriving DecidableEq, Repr

/-- A completed process, as `subprocess.CompletedProcess`: the command
and its return code (captured output is irrelevant to the properties
verified here and is left abstract in the spawn oracle). -/
structure RunResult where
  cmd : Cmd
  returncode : Int
deriving DecidableEq, Repr

/-- A record that a process was created, with or without shell
interpretation. -/
structure SpawnEvent where
  cmd : Cmd
  shell : Bool
deriving DecidableEq, Repr

/-- A single quote character, used by the `PermissionError` message. -/
def squote : String := String.singleton (Char.ofNat 39)

/-- The `PermissionError` message built at utils.py lines 64-67, naming
the rejected command name (in single quotes) and both environment
variables. -/
def permMsg (cmd_name : String) : String :=
  "Shell execution not allowed. Set ALLOW_SHELL=true or add " ++ squote ++ cmd_name
    ++ squote ++ " to ALLOWED_SHELL_COMMANDS environment variable."

/-- utils.py line 58: `[c.strip() for c in allowed_commands.split(",") if c.strip()]`. -/
def allowedList (allowed_commands : String) : List String :=
  ((pySplitComma allowed_commands).map pyStrip).filter (fun c => c ≠ "")

/-- utils.py line 61: `cmd_name = cmd.split()[0] if isinstance(cmd, str) else ""`;
indexing an empty token list raises `IndexError`. -/
def extractCmdName (cmd : Cmd) : Except PyExn String :=
  match cmd with
  | Cmd.str s =>
      match pySplitWs s with
      | [] => Except.error PyExn.indexError
      | t :: _ => Except.ok t
  | Cmd.list _ => Except.ok ""

/-- utils.py lines 52-67: the shell-authorization check performed by
`safe_run` when `shell=True`. -/
def shellCheck (env : Env) (cmd : Cmd) : Except PyExn Unit :=
  if pyLower (env.allow_shell.getD "") = "true" then
    Except.ok ()
  else
    let allowed_list := allowedList (env.allowed_shell_commands.getD "")
    match extractCmdName cmd with
    | Except.error e => Except.error e
    | Except.ok cmd_name =>
        if cmd_name ∈ allowed_list then Except.ok ()
        else Except.error (PyExn.permissionError (permMsg cmd_name))

/-- utils.py lines 21-89: `safe_run`.  `oracle cmd shell` is the exit code
of the spawned process (`subprocess.run`).  The second component of the
result is the list of spawn events produced by the call: an exception
raised before `subprocess.run` leaves it empty. -/
def safe_run (env : Env) (oracle : Cmd → Bool → Int) (cmd : Cmd)
    (check shell : Bool) : Except PyExn RunResult × List SpawnEvent :=
  match (if shell then shellCheck env cmd else Except.ok ()) with
  | Except.error e => (Except.error e, [])
  | Except.ok _ =>
      let rc := oracle cmd shell
      if check = true ∧ rc ≠ 0 then
        (Except.error (PyExn.calledProcessError rc cmd), [⟨cmd, shell⟩])
      else
        (Except.ok ⟨cmd, rc⟩, [⟨cmd, shell⟩])

/-- Whether a `safe_run` outcome is a raised `PermissionError`. -/
def raisesPermissionError (r : Except PyExn RunResult × List SpawnEvent) : Bool :=
  match r.1 with
  | Except.error (PyExn.permissionError _) => true
  | _ => false

/-- The five severities of `user_log`. -/
inductive Severity
  | debug | info | warning | error | critical
deriving DecidableEq, Repr

/-- utils.py lines 111-119: `log_methods.get(level.lower(), logger.info)`. -/
def resolveSeverity (level : String) : Severity :=
  let l := pyLower level
  if l = "debug" then Severity.debug
  else if l = "info" then Severity.info
  else if l = "warning" then Severity.warning
  else if l = "error" then Severity.error
  else if l = "critical" then Severity.critical
  else Severity.info

/-- The console stream a mirrored line is printed to. -/
inductive ConsoleStream
  | stdout | stderr
deriving DecidableEq, Repr

/-- The dispatch to the leveled log sink: which logger method was called
and with which line. -/
structure SinkCall where
  sev : Severity
  line : String
deriving DecidableEq, Repr

/-- A line printed to a console stream. -/
structure ConsoleWrite where
  stream : ConsoleStream
  line : String
deriving DecidableEq, Repr

/-- utils.py lines 122-126: the final line, with the bracketed
pipe-separated context appended when `kwargs` is non-empty.  Context
values are modelled as their string representations. -/
def buildLine (message : String) (kwargs : List (String × String)) : String :=
  if kwargs = [] then message
  else message ++ " [" ++
    String.intercalate " | " (kwargs.map (fun kv => kv.1 ++ "=" ++ kv.2)) ++ "]"

/-- utils.py lines 92-134: `user_log`.  Returns the sink dispatch and the
optional console mirror (`none` when no console output occurs). -/
def user_log (env : Env) (message level : String) (stderr : Bool)
    (kwargs : List (String × String)) : SinkCall × Option ConsoleWrite :=
  let sev := resolveSeverity level
  let full_message := buildLine message kwargs
  let console :=
    if pyLower (env.log_to_stdout.getD "") = "true" then
      some ⟨if stderr = true ∨ pyLower level = "error" ∨ pyLower level = "critical"
            then ConsoleStream.stderr else ConsoleStream.stdout, full_message⟩
    else none
  (⟨sev, full_message⟩, console)

/-- The empty string never survives the `if c.strip()` filter, so it is
never a member of the allowed-commands list. -/
theorem empty_not_mem_allowedList (s : String) : "" ∉ allowedList s := by
  simp [allowedList]

/-- A `safe_run` call with `shell=True` spawns a process exactly when the
shell-authorization check succeeds. -/
theorem spawns_ne_nil_iff (env : Env) (oracle : Cmd → Bool → Int) (cmd : Cmd)
    (check : Bool) :
    (safe_run env oracle cmd check true).2 ≠ [] ↔ shellCheck env cmd = Except.ok () := by
  unfold safe_run
  cases hc : shellCheck env cmd with
  | ok u => cases u; simp only [if_true, hc]; split <;> simp
  | error e => simp [hc]

/-- C1: with shell=True the ExecutionPolicy check gates process creation:
a process is spawned only if `shellCheck` authorizes it, and whenever the
check fails `safe_run` returns that error with no spawn event. -/
theorem shell_check_gates_spawn (env : Env) (oracle : Cmd → Bool → Int) (cmd : Cmd)
    (check : Bool) :
    ((safe_run env oracle cmd check true).2 ≠ [] → shellCheck env cmd = Except.ok ()) ∧
    (∀ e, shellCheck env cmd = Except.error e →
      safe_run env oracle cmd check true = (Except.error e, [])) := by
  refine ⟨fun h => (spawns_ne_nil_iff env oracle cmd check).mp h, fun e he => ?_⟩
  simp [safe_run, he]

/-- C1 witness: an unauthorized shell call returns the PermissionError
with no spawn event. -/
theorem shell_check_gates_spawn_witness :
    safe_run ⟨none, none, none⟩ (fun _ _ => 0) (Cmd.list ["ls"]) true true
      = (Except.error (PyExn.permissionError (permMsg "")), []) :=
  (shell_check_gates_spawn ⟨none, none, none⟩ (fun _ _ => 0) (Cmd.list ["ls"]) true).2
    (PyExn.permissionError (permMsg "")) rfl

/-- C2: a list-form command with shell=True and ALLOW_SHELL not "true"
always raises PermissionError, whatever ALLOWED_SHELL_COMMANDS holds: the
extracted name is the empty string, which never matches an allowed entry. -/
theorem list_form_fails_closed (env : Env) (oracle : Cmd → Bool → Int)
    (xs : List String) (check : Bool)
    (h : pyLower (env.allow_shell.getD "") ≠ "true") :
    safe_run env oracle (Cmd.list xs) check true
      = (Except.error (PyExn.permissionError (permMsg "")), []) := by
  have hmem := empty_not_mem_allowedList (env.allowed_shell_commands.getD "")
  simp [safe_run, shellCheck, extractCmdName, h, hmem]

/-- C2 witness: the list form fails closed even when the would-be command
name is listed in ALLOWED_SHELL_COMMANDS. -/
theorem list_form_fails_closed_witness :
    safe_run ⟨none, some "rm,ls", none⟩ (fun _ _ => 0) (Cmd.list ["rm"]) true true
      = (Except.error (PyExn.permissionError (permMsg "")), []) :=
  list_form_fails_closed ⟨none, some "rm,ls", none⟩ (fun _ _ => 0) ["rm"] true (by decide)

/-- C4: when ALLOW_SHELL lowercases to "true", authorization succeeds
unconditionally: the check passes, no PermissionError is raised, the
process is spawned, and the outcome is independent of
ALLOWED_SHELL_COMMANDS. -/
theorem allow_shell_true_authorizes (env : Env) (oracle : Cmd → Bool → Int)
    (cmd : Cmd) (check : Bool) (other : Option String)
    (h : pyLower (env.allow_shell.getD "") = "true") :
    shellCheck env cmd = Except.ok () ∧
    raisesPermissionError (safe_run env oracle cmd check true) = false ∧
    (safe_run env oracle cmd check true).2 = [⟨cmd, true⟩] ∧
    safe_run ⟨env.allow_shell, other, env.log_to_stdout⟩ oracle cmd check true
      = safe_run env oracle cmd check true := by
  have hc : shellCheck env cmd = Except.ok () := by simp [shellCheck, h]
  have hc2 : shellCheck ⟨env.allow_shell, other, env.log_to_stdout⟩ cmd = Except.ok () := by
    simp [shellCheck, h]
  refine ⟨hc, ?_, ?_, ?_⟩
  · unfold safe_run
    simp only [if_true, hc]
    split <;> rfl
  · unfold safe_run
    simp only [if_true, hc]
    split <;> rfl
  · unfold safe_run
    simp only [if_true, hc, hc2]

/-- C4 witness: with ALLOW_SHELL="TRUE" the dangerous command is run even
though the allowlist would not admit it. -/
theorem allow_shell_true_authorizes_witness :
    shellCheck ⟨some "TRUE", some "echo", none⟩ (Cmd.str "rm -rf /") = Except.ok () ∧
    (safe_run ⟨some "TRUE", some "echo", none⟩ (fun _ _ => 0) (Cmd.str "rm -rf /") true true).2
      = [⟨Cmd.str "rm -rf /", true⟩] :=
  have h := allow_shell_true_authorizes ⟨some "TRUE", some "echo", none⟩
    (fun _ _ => 0) (Cmd.str "rm -rf /") true (some "echo") (by decide)
  ⟨h.1, h.2.2.1⟩

/-- C5: when the spawned process exits non-zero, check=True turns the
result into a CalledProcessError carrying the exit code and the command,
while check=False returns the completed result with that exit code. -/
theorem check_flag_behavior (env : Env) (oracle : Cmd → Bool → Int) (cmd : Cmd)
    (shell : Bool) (rc : Int)
    (hauth : shell = false ∨ shellCheck env cmd = Except.ok ())
    (hrc : oracle cmd shell = rc) (hne : rc ≠ 0) :
    safe_run env oracle cmd true shell
      = (Except.error (PyExn.calledProcessError rc cmd), [⟨cmd, shell⟩]) ∧
    safe_run env oracle cmd false shell = (Except.ok ⟨cmd, rc⟩, [⟨cmd, shell⟩]) := by
  have hok : (if shell then shellCheck env cmd else Except.ok ()) = Except.ok () := by
    rcases hauth with h | h
    · simp [h]
    · cases shell <;> simp [h]
  constructor <;> simp [safe_run, hok, hrc, hne]

/-- C5 witness: exit code 7 raises under check=True and is returned under
check=False. -/
theorem check_flag_behavior_witness :
    safe_run ⟨none, none, none⟩ (fun _ _ => 7) (Cmd.list ["x"]) true false
      = (Except.error (PyExn.calledProcessError 7 (Cmd.list ["x"])),
         [⟨Cmd.list ["x"], false⟩]) ∧
    safe_run ⟨none, none, none⟩ (fun _ _ => 7) (Cmd.list ["x"]) false false
      = (Except.ok ⟨Cmd.list ["x"], 7⟩, [⟨Cmd.list ["x"], false⟩]) :=
  check_flag_behavior ⟨none, none, none⟩ (fun _ _ => 7) (Cmd.list ["x"]) false 7
    (Or.inl rfl) rfl (by decide)

/-- C9: a string command with no whitespace-delimited token, under
shell=True and unauthorized ALLOW_SHELL, raises IndexError (from indexing
the empty token list), not PermissionError, and spawns nothing. -/
theorem tokenless_string_raises_indexError (env : Env) (oracle : Cmd → Bool → Int)
    (s : String) (check : Bool)
    (hallow : pyLower (env.allow_shell.getD "") ≠ "true")
    (hs : pySplitWs s = []) :
    safe_run env oracle (Cmd.str s) check true = (Except.error PyExn.indexError, []) := by
  simp [safe_run, shellCheck, extractCmdName, hallow, hs]

/-- C9 witness: the whitespace-only command under both variables unset. -/
theorem tokenless_string_raises_indexError_witness :
    safe_run ⟨none, none, none⟩ (fun _ _ => 0) (Cmd.str "   ") true true
      = (Except.error PyExn.indexError, []) :=
  tokenless_string_raises_indexError ⟨none, none, none⟩ (fun _ _ => 0) "   " true
    (by decide) (by decide)

/-- C10: the authorization decision for a shell string command depends
only on its first whitespace-delimited token: two commands sharing that
token get the same check result, and one spawns iff the other does. -/
theorem first_token_determines_authorization (env : Env) (oracle : Cmd → Bool → Int)
    (s₁ s₂ t : String) (r₁ r₂ : List String) (check : Bool)
    (h₁ : pySplitWs s₁ = t :: r₁) (h₂ : pySplitWs s₂ = t :: r₂) :
    shellCheck env (Cmd.str s₁) = shellCheck env (Cmd.str s₂) ∧
    ((safe_run env oracle (Cmd.str s₁) check true).2 ≠ [] ↔
      (safe_run env oracle (Cmd.str s₂) check true).2 ≠ []) := by
  have hcheck : shellCheck env (Cmd.str s₁) = shellCheck env (Cmd.str s₂) := by
    simp [shellCheck, extractCmdName, h₁, h₂]
  refine ⟨hcheck, ?_⟩
  rw [spawns_ne_nil_iff, spawns_ne_nil_iff, hcheck]

/-- C10 witness: a benign and a destructive pipeline sharing the first
token receive the same authorization. -/
theorem first_token_determines_authorization_witness :
    shellCheck ⟨none, some "echo", none⟩ (Cmd.str "echo a")
      = shellCheck ⟨none, some "echo", none⟩ (Cmd.str "echo b; rm -rf /") :=
  (first_token_determines_authorization ⟨none, some "echo", none⟩ (fun _ _ => 0)
    "echo a" "echo b; rm -rf /" "echo" ["a"] ["b;", "rm", "-rf", "/"] true
    (by decide) (by decide)).1

/-- C3 counterexample: with both variables unset and shell=True, the
empty-string command fails with IndexError, not PermissionError, so not
every command fails with PermissionDenied as the claim states. -/
theorem c3_counterexample :
    safe_run ⟨none, none, none⟩ (fun _ _ => 0) (Cmd.str "") true true
      = (Except.error PyExn.indexError, []) ∧
    raisesPermissionError
        (safe_run ⟨none, none, none⟩ (fun _ _ => 0) (Cmd.str "") true true)
      = false :=
  ⟨rfl, rfl⟩

/-- C3 (amended): with shell=True, ALLOW_SHELL not "true", and a command
whose name extraction succeeds (a list, or a string with at least one
token), safe_run raises the PermissionError naming the rejected command
and both environment variables — spawning nothing — exactly when that
name is not among the trimmed comma-separated ALLOWED_SHELL_COMMANDS
entries. -/
theorem permission_denied_iff_not_allowed (env : Env) (oracle : Cmd → Bool → Int)
    (cmd : Cmd) (check : Bool) (name : String)
    (hallow : pyLower (env.allow_shell.getD "") ≠ "true")
    (hname : extractCmdName cmd = Except.ok name) :
    (safe_run env oracle cmd check true
        = (Except.error (PyExn.permissionError (permMsg name)), [])
      ↔ name ∉ allowedList (env.allowed_shell_commands.getD "")) ∧
    permMsg name = "Shell execution not allowed. Set ALLOW_SHELL=true or add "
      ++ squote ++ name ++ squote
      ++ " to ALLOWED_SHELL_COMMANDS environment variable." := by
  refine ⟨?_, rfl⟩
  by_cases hmem : name ∈ allowedList (env.allowed_shell_commands.getD "")
  · simp only [safe_run, shellCheck, hallow, if_false, hname, hmem, if_true,
      iff_false, not_not, hmem, eq_self_iff_true, if_pos]
    split <;> simp [hmem]
  · simp [safe_run, shellCheck, hallow, hname, hmem]

/-- C3 witness: with both variables unset, a destructive one-token-plus
command fails with the PermissionError and no spawn event. -/
theorem permission_denied_iff_not_allowed_witness :
    safe_run ⟨none, none, none⟩ (fun _ _ => 0) (Cmd.str "rm -rf /") true true
      = (Except.error (PyExn.permissionError (permMsg "rm")), []) :=
  ((permission_denied_iff_not_allowed ⟨none, none, none⟩ (fun _ _ => 0)
      (Cmd.str "rm -rf /") true "rm" (by decide) rfl).1).mpr (by decide)

/-- The code routes the console mirror by the raw lowercased level; this
coincides with the resolved severity being `error`. -/
theorem resolveSeverity_eq_error_iff (level : String) :
    resolveSeverity level = Severity.error ↔ pyLower level = "error" := by
  simp only [resolveSeverity]
  split_ifs <;> simp_all

/-- As above, for `critical`. -/
theorem resolveSeverity_eq_critical_iff (level : String) :
    resolveSeverity level = Severity.critical ↔ pyLower level = "critical" := by
  simp only [resolveSeverity]
  split_ifs <;> simp_all

/-- C6: the console mirror exists iff LOG_TO_STDOUT lowercases to "true"
(in particular never when it is unset), and when it exists it carries the
dispatched line, on standard error iff stderr was forced or the resolved
severity is error or critical, on standard output otherwise. -/
theorem console_mirror_routing (env : Env) (m lvl : String) (stderr : Bool)
    (kwargs : List (String × String)) :
    (env.log_to_stdout = none → (user_log env m lvl stderr kwargs).2 = none) ∧
    (((user_log env m lvl stderr kwargs).2).isSome = true
      ↔ pyLower (env.log_to_stdout.getD "") = "true") ∧
    (pyLower (env.log_to_stdout.getD "") = "true" →
      (user_log env m lvl stderr kwargs).2
        = some ⟨if stderr = true ∨ resolveSeverity lvl = Severity.error
                  ∨ resolveSeverity lvl = Severity.critical
                then ConsoleStream.stderr else ConsoleStream.stdout,
                (user_log env m lvl stderr kwargs).1.line⟩) := by
  refine ⟨?_, ?_, ?_⟩
  · intro h0
    have : pyLower (env.log_to_stdout.getD "") = "" := by rw [h0]; rfl
    simp [user_log, this]
  · by_cases henv : pyLower (env.log_to_stdout.getD "") = "true" <;>
      simp [user_log, henv]
  · intro henv
    simp only [user_log, henv, if_true, resolveSeverity_eq_error_iff,
      resolveSeverity_eq_critical_iff]

/-- C6 witness: with LOG_TO_STDOUT unset no console output occurs; with
LOG_TO_STDOUT="true" an error-level line goes to standard error. -/
theorem console_mirror_routing_witness :
    (user_log ⟨none, none, none⟩ "m" "error" false []).2 = none ∧
    (user_log ⟨none, none, some "true"⟩ "m" "error" false []).2
      = some ⟨ConsoleStream.stderr, "m"⟩ :=
  ⟨(console_mirror_routing ⟨none, none, none⟩ "m" "error" false []).1 rfl,
   ((console_mirror_routing ⟨none, none, some "true"⟩ "m" "error" false []).2.2
      (by decide)).trans (by decide)⟩

/-- C7: the dispatched line is the message followed by a space and a
bracketed pipe-separated key=value list in insertion order when the
context is non-empty, and the bare message otherwise. -/
theorem context_formatting (env : Env) (m lvl : String) (stderr : Bool)
    (kwargs : List (String × String)) :
    (kwargs ≠ [] → (user_log env m lvl stderr kwargs).1.line
        = m ++ " [" ++ String.intercalate " | "
            (kwargs.map (fun kv => kv.1 ++ "=" ++ kv.2)) ++ "]") ∧
    (kwargs = [] → (user_log env m lvl stderr kwargs).1.line = m) := by
  constructor <;> intro h <;> simp [user_log, buildLine, h]

/-- C7 witness: the documented example produces the documented line. -/
theorem context_formatting_witness :
    (user_log ⟨none, none, none⟩ "Task completed" "info" false
        [("task_id", "123"), ("status", "success")]).1.line
      = "Task completed [task_id=123 | status=success]" := by
  have h := (context_formatting ⟨none, none, none⟩ "Task completed" "info" false
      [("task_id", "123"), ("status", "success")]).1 (by decide)
  exact h.trans (by decide)

/-- C8: a level string that is not (case-insensitively) one of the five
recognized severities makes user_log behave exactly as level="info": same
sink call, same line, same console routing. -/
theorem unrecognized_level_defaults_to_info (env : Env) (m lvl : String)
    (stderr : Bool) (kwargs : List (String × String))
    (h : pyLower lvl ∉ (["debug", "info", "warning", "error", "critical"] : List String)) :
    user_log env m lvl stderr kwargs = user_log env m "info" stderr kwargs := by
  simp only [List.mem_cons, List.mem_singleton, not_or] at h
  obtain ⟨h1, h2, h3, h4, h5⟩ := h
  have hinfo : pyLower "info" = "info" := rfl
  unfold user_log resolveSeverity
  simp [h1, h2, h3, h4, h5, hinfo]

/-- C8 witness: level "trace" behaves as level "info". -/
theorem unrecognized_level_defaults_to_info_witness :
    user_log ⟨none, none, some "true"⟩ "m" "trace" false [("k", "v")]
      = user_log ⟨none, none, some "true"⟩ "m" "info" false [("k", "v")] :=
  unrecognized_level_defaults_to_info ⟨none, none, some "true"⟩ "m" "trace" false
    [("k", "v")] (by decide)

end AgentsUtils
